import Mathlib

/-!
Verification of the Kryptos-AI extension orchestration layer.

Shallow embedding of the background orchestrator (`src/unnamed/part_002`)
and the content-script link heuristic filter
(`src/extension/content.js`): per-tab state store, badge state machine,
scan signal handling, link-safety cache, periodic rescanner.

Stateful JavaScript is embedded as explicit state passing: the per-tab
`Map` and the link-safety cache become association lists, every
externally visible action (badge update, network request, response,
audio dispatch) becomes an element of an explicit effect trace, and the
single `await` suspension point of `handleScoutSignal` splits the
handler into a request phase and a response phase so that interleavings
of overlapping scans can be run as event lists.
-/

namespace Kryptos

/-! ## String primitives

List-based embeddings of the string operations the source uses
(`startsWith`, `endsWith`, `includes`, `split`, emptiness), chosen so
that every definition evaluates by kernel reduction. -/

/-- `s.startsWith(pre)`. -/
def strStartsWith (s pre : String) : Bool :=
  pre.toList.isPrefixOf s.toList

/-- `s.endsWith(post)`. -/
def strEndsWith (s post : String) : Bool :=
  post.toList.reverse.isPrefixOf s.toList.reverse

/-- `s.split(c)` on a single-character separator, JS semantics
(an empty string yields one empty field). -/
def splitOnChar (c : Char) : List Char → List (List Char)
  | [] => [[]]
  | x :: xs =>
      let r := splitOnChar c xs
      if x = c then [] :: r
      else
        match r with
        | [] => [[x]]
        | y :: ys => (x :: y) :: ys

/-- `hostname.split('.')`. -/
def hostLabels (h : String) : List String :=
  (splitOnChar '.' h.toList).map String.mk

/-! ## JavaScript value helpers -/

/-- Truthiness of an optional JS string: `undefined`/`null` and the empty
string are falsy, every other string is truthy. -/
def strTruthy : Option String → Bool
  | some s => !s.toList.isEmpty
  | none => false

/-- JS `a || b` on optional strings: yields `a` when `a` is truthy,
otherwise `b`. -/
def jsOrStr (a b : Option String) : Option String :=
  if strTruthy a then a else b

/-! ## Data model -/

/-- `SCOUT_SIGNAL` payload produced by the content script; the orchestrator
reads `url` and `hasPrivacyPolicy` (the other fields are only logged). -/
structure ScoutSignal where
  url : String
  isLogin : Bool
  hasPrivacyPolicy : Bool
  detectedKeywords : List String
deriving DecidableEq, Repr

/-- Remote scan result as consumed by the background script: `riskScore`
may be absent (`null`/`undefined`); `hasPrivacyPolicy` is read through
`=== true`, so a missing field behaves as `false`; `voiceAlert` /
`voice_alert` are the two accepted spellings of the voice-alert
reference; `explanation` is used by the link-safety path. -/
structure ScanResult where
  riskScore : Option Int
  hasPrivacyPolicy : Bool
  voiceAlert : Option String
  voice_alert : Option String
  explanation : Option String
deriving DecidableEq, Repr

/-- One value stored in the per-tab `Map` (`tabState`). Each JS call site
writes a fresh object literal; a field the literal omits is `none`. -/
structure TabEntry where
  url : String
  riskScore : Option Int
  hasPrivacyPolicy : Bool
  fullResult : Option ScanResult
  skippedReason : Option String
deriving DecidableEq, Repr

/-- Payload of `postFullScan` (`POST /scan`). -/
structure FullScanPayload where
  url : String
  scanType : String
  content : Option String
  image_data : Option String
deriving DecidableEq, Repr

/-- Payload of `postScoutScan` (`POST /api/scout/scan`). -/
structure ScoutScanPayload where
  url : String
  isLogin : Bool
  hasPrivacyPolicy : Bool
  detectedKeywords : List String
  detectedScam : List String
  detectedMalware : List String
deriving DecidableEq, Repr

/-- Value passed to `sendResponse`: either a scan result, or the error
object `{ error, riskScore: 0, hasPrivacyPolicy }` built on failure. -/
inductive ScoutResponse where
  | ok (result : ScanResult)
  | err (message : String) (riskScore : Int) (hasPrivacyPolicy : Bool)
deriving DecidableEq, Repr

/-- Externally visible actions of the background script, in program
order. -/
inductive Effect where
  | badgeText (text : String) (tabId : Option Nat)
  | badgeColor (color : String) (tabId : Option Nat)
  | fullScanRequest (payload : FullScanPayload)
  | scoutScanRequest (payload : ScoutScanPayload)
  | createOffscreen
  | playVoice (audioSrc : String)
  | respond (r : ScoutResponse)
deriving DecidableEq, Repr

/-- Number of outbound network requests in an effect trace. -/
def remoteCallCount (effs : List Effect) : Nat :=
  effs.countP fun e =>
    match e with
    | .fullScanRequest _ => true
    | .scoutScanRequest _ => true
    | _ => false

/-- Number of Audio Alert Bridge play commands in an effect trace. -/
def voicePlayCount (effs : List Effect) : Nat :=
  effs.countP fun e =>
    match e with
    | .playVoice _ => true
    | _ => false

/-! ## Model of the browser URL parser

`new URL(u).hostname` is a platform builtin, not repository code. We
model it for the http(s) URLs the extension deals with: the scheme must
be `http://` or `https://`, the host is the authority cut at the first
of `:`, `/`, `?`, `#`, and is reported lower-cased; an absent scheme or
an empty host is a parse failure (the JS constructor throws). -/

/-- Characters ending the host portion of an http(s) URL. -/
def hostEnd (c : Char) : Bool :=
  c = ':' || c = '/' || c = '?' || c = '#'

/-- Model of `new URL(u).hostname` for http(s) URLs (see section
comment); `none` models the constructor throwing. -/
def parseHostname (u : String) : Option String :=
  let rest :=
    if strStartsWith u "http://" then some (u.toList.drop 7)
    else if strStartsWith u "https://" then some (u.toList.drop 8)
    else none
  match rest with
  | none => none
  | some cs =>
      let host := cs.takeWhile (fun c => !hostEnd c)
      if host.isEmpty then none
      else some (String.mk (host.map Char.toLower))

/-! ## Badge state machine (`setBadgeFromResult`, `setBadgeScanning`) -/

/-- Argument shape of `setBadgeFromResult`: call sites pass an object
literal `{ riskScore, hasPrivacyPolicy }`. -/
structure BadgeInput where
  riskScore : Option Int
  hasPrivacyPolicy : Bool
deriving DecidableEq, Repr

/-- A badge is the `{ text, color }` pair applied to the action button. -/
structure Badge where
  text : String
  color : String
deriving DecidableEq, Repr

/-- `riskScore > 70` state. -/
def DANGER : Badge := ⟨"!", "#FF0000"⟩

/-- Privacy-review state. -/
def PRIVACY : Badge := ⟨"i", "#0000FF"⟩

/-- Default safe state. -/
def SAFE : Badge := ⟨"✓", "#00FF00"⟩

/-- Badge applied by the localhost short-circuit branch. -/
def LOCALHOST_SAFE : Badge := ⟨"✓", "#10b981"⟩

/-- Pure core of `setBadgeFromResult`: risk defaults to `0` when the
field is `null`/absent, `risk > 70` wins over the privacy flag. -/
def badgeOfResult (result : BadgeInput) : Badge :=
  let risk := result.riskScore.getD 0
  let hasPrivacy := result.hasPrivacyPolicy
  if risk > 70 then DANGER
  else if hasPrivacy then PRIVACY
  else SAFE

/-- Effects emitted by `setBadgeFromResult`: badge text then color. -/
def setBadgeFromResult (result : BadgeInput) (tabId : Option Nat) : List Effect :=
  [.badgeText (badgeOfResult result).text tabId,
   .badgeColor (badgeOfResult result).color tabId]

/-- Effects emitted by `setBadgeScanning`. -/
def setBadgeScanning (tabId : Option Nat) : List Effect :=
  [.badgeText "..." tabId, .badgeColor "#666666" tabId]

/-! ## Tab State Store

`const tabState = new Map()`, embedded as an association list from tab
id to entry. `Map.set` stores the given value under the key, replacing
whatever was there. -/

/-- The per-tab state map. -/
abbrev TabMap := List (Nat × TabEntry)

/-- `tabState.get(t)`. -/
def tabGet (m : TabMap) (t : Nat) : Option TabEntry :=
  (List.find? (fun kv => kv.1 = t) m).map (·.2)

/-- `tabState.set(t, e)`: bind `t` to exactly `e`. -/
def tabSet (m : TabMap) (t : Nat) (e : TabEntry) : TabMap :=
  (t, e) :: List.filter (fun kv => kv.1 ≠ t) m

/-- `tabState.set` guarded by `if (tabId != null)`. -/
def tabSetOpt (m : TabMap) (t : Option Nat) (e : TabEntry) : TabMap :=
  match t with
  | some t => tabSet m t e
  | none => m

/-! ## Scan Orchestrator (`handleScoutSignal`)

The handler has one suspension point, the `await postFullScan(...)`
call. We split it there: `scoutRequestPhase` is everything before the
await (localhost short-circuit, scanning badge, dispatch of the
request), `scoutResponsePhase` is the continuation that runs when the
response or the rejection arrives, with the `signal` and `tabId` it
closed over at request time. -/

/-- Host test of the localhost short-circuit (`handleScoutSignal`). -/
def isLocalhostHost (h : String) : Bool :=
  h = "localhost" || h = "127.0.0.1" || strEndsWith h ".local"

/-- Entry stored for a skipped localhost page. -/
def localhostEntry (url : String) : TabEntry :=
  { url := url, riskScore := some 0, hasPrivacyPolicy := false,
    fullResult := none, skippedReason := some "localhost" }

/-- Badge effects of the localhost branch (`'✓'` on `#10b981`). -/
def localhostBadgeEffects (tabId : Option Nat) : List Effect :=
  [.badgeText LOCALHOST_SAFE.text tabId, .badgeColor LOCALHOST_SAFE.color tabId]

/-- Body sent by `handleScoutSignal` to `postFullScan`. -/
def scoutFullScanPayload (url : String) : FullScanPayload :=
  { url := url, scanType := "page", content := some "", image_data := none }

/-- Outcome of the pre-await part of `handleScoutSignal`. -/
inductive RequestPhase where
  | earlyReturn (m : TabMap) (effs : List Effect)
  | pending (m : TabMap) (effs : List Effect) (signal : ScoutSignal) (tabId : Option Nat)

/-- `handleScoutSignal` up to the `await`: parse the URL (a parse
failure falls through to the scan), short-circuit localhost hosts with
the safe badge and a minimal tab entry, otherwise show the scanning
badge and dispatch the full-pipeline request, capturing `signal` and
`tabId` for the continuation. -/
def scoutRequestPhase (signal : ScoutSignal) (tabId : Option Nat) (m : TabMap) :
    RequestPhase :=
  match parseHostname signal.url with
  | some h =>
      if isLocalhostHost h then
        .earlyReturn (tabSetOpt m tabId (localhostEntry signal.url))
          (localhostBadgeEffects tabId)
      else
        .pending m (setBadgeScanning tabId ++
          [.fullScanRequest (scoutFullScanPayload signal.url)]) signal tabId
  | none =>
      .pending m (setBadgeScanning tabId ++
        [.fullScanRequest (scoutFullScanPayload signal.url)]) signal tabId

/-- `playHighRiskVoiceAlert`: falsy reference is a no-op; an inline
base64 payload is used as is, otherwise the backend audio URL is built;
the offscreen document is created (already-exists is tolerated) and the
play command forwarded. -/
def playHighRiskVoiceAlert (voiceAlert : Option String) : List Effect :=
  match voiceAlert with
  | none => []
  | some s =>
      if s.toList.isEmpty then []
      else
        let audioSrc :=
          if strStartsWith s "audio/mpeg;base64," then s
          else "http://localhost:8000" ++ "/audio/" ++ s
        [.createOffscreen, .playVoice audioSrc]

/-- Entry stored by the success branch of `handleScoutSignal`:
`hasPrivacyPolicy` comes from the signal, the risk and full result from
the response. -/
def successEntry (signal : ScoutSignal) (result : ScanResult) : TabEntry :=
  { url := signal.url, riskScore := result.riskScore,
    hasPrivacyPolicy := signal.hasPrivacyPolicy,
    fullResult := some result, skippedReason := none }

/-- Entry stored by the failure branch of `handleScoutSignal`. -/
def failureEntry (signal : ScoutSignal) : TabEntry :=
  { url := signal.url, riskScore := some 0,
    hasPrivacyPolicy := signal.hasPrivacyPolicy,
    fullResult := none, skippedReason := none }

/-- `handleScoutSignal` after the `await`, applied when the remote call
settles: on success store the merged entry, set the badge from
`{ riskScore: result.riskScore, hasPrivacyPolicy: signal.hasPrivacyPolicy }`,
play the voice alert when `(result.riskScore ?? 0) >= 70` and a
voice-alert reference is truthy, and respond with the result; on
rejection set the fail-open badge, store the riskScore-0 entry and
respond with the error object. -/
def scoutResponsePhase (signal : ScoutSignal) (tabId : Option Nat)
    (outcome : Except String ScanResult) (m : TabMap) : TabMap × List Effect :=
  match outcome with
  | .ok result =>
      let m' := tabSetOpt m tabId (successEntry signal result)
      let voiceEffs :=
        if result.riskScore.getD 0 ≥ 70 &&
            strTruthy (jsOrStr result.voiceAlert result.voice_alert) then
          playHighRiskVoiceAlert (jsOrStr result.voiceAlert result.voice_alert)
        else []
      (m', setBadgeFromResult
            ⟨result.riskScore, signal.hasPrivacyPolicy⟩ tabId ++
        voiceEffs ++ [.respond (.ok result)])
  | .error msg =>
      let m' := tabSetOpt m tabId (failureEntry signal)
      (m', setBadgeFromResult ⟨some 0, signal.hasPrivacyPolicy⟩ tabId ++
        [.respond (.err msg 0 signal.hasPrivacyPolicy)])

/-- The whole `handleScoutSignal`, for runs without interleaving: the
request phase followed, when a request was dispatched, by the response
phase on the remote call's outcome. -/
def handleScoutSignal (signal : ScoutSignal) (tabId : Option Nat)
    (outcome : Except String ScanResult) (m : TabMap) : TabMap × List Effect :=
  match scoutRequestPhase signal tabId m with
  | .earlyReturn m' effs => (m', effs)
  | .pending m' effs sig tid =>
      let (m'', effs') := scoutResponsePhase sig tid outcome m'
      (m'', effs ++ effs')

/-! ## Interleaved scans (concurrency model)

The background script is single-threaded and suspends exactly at the
network call, so a run is a sequence of request-phase and
response-phase steps; a response step uses the signal and tab id its
handler captured at request time. -/

/-- One scheduler step: a scan reaching its request phase, or a pending
scan's response (with the captured request data) arriving. -/
inductive TabEvent where
  | request (signal : ScoutSignal) (tabId : Option Nat)
  | response (signal : ScoutSignal) (tabId : Option Nat)
      (outcome : Except String ScanResult)

/-- Effect of one event on the tab state store. -/
def stepEvent (m : TabMap) (e : TabEvent) : TabMap :=
  match e with
  | .request signal tabId =>
      match scoutRequestPhase signal tabId m with
      | .earlyReturn m' _ => m'
      | .pending m' _ _ _ => m'
  | .response signal tabId outcome =>
      (scoutResponsePhase signal tabId outcome m).1

/-- Run a list of events from a starting store. -/
def runEvents (m : TabMap) (es : List TabEvent) : TabMap :=
  es.foldl stepEvent m

/-- The entry a settled response writes for its captured signal. -/
def entryOfOutcome (signal : ScoutSignal) (outcome : Except String ScanResult) :
    TabEntry :=
  match outcome with
  | .ok result => successEntry signal result
  | .error _ => failureEntry signal

/-! ## Periodic Rescanner

`setInterval` body at `RESCAN_INTERVAL_MS`: resolve the focused tab,
skip non-http and localhost URLs, re-run the full pipeline and store
the result — with `hasPrivacyPolicy` taken from the result. Failures
anywhere (including a throwing `new URL`) are swallowed by the
surrounding `try`. The focused-tab resolution is a platform call; the
model takes the resolved tab as input (`none` when there is none). -/

/-- The resolved active tab of the focused window. -/
structure ActiveTab where
  id : Nat
  url : String
deriving DecidableEq, Repr

/-- Host test at the rescanner's own skip line. -/
def rescanIsLocalhost (h : String) : Bool :=
  h = "localhost" || h = "127.0.0.1" || strEndsWith h ".local"

/-- Body the rescanner sends to `postFullScan` (its own object
literal). -/
def rescanFullScanPayload (url : String) : FullScanPayload :=
  { url := url, scanType := "page", content := some "", image_data := none }

/-- Entry stored by the rescanner's success path. -/
def rescanSuccessEntry (url : String) (result : ScanResult) : TabEntry :=
  { url := url, riskScore := result.riskScore,
    hasPrivacyPolicy := result.hasPrivacyPolicy,
    fullResult := some result, skippedReason := none }

/-- One rescanner tick, given the resolved tab and the remote outcome
of the full-pipeline call (unused when the tick bails out before
calling). -/
def rescanTick (tab : Option ActiveTab) (outcome : Except String ScanResult)
    (m : TabMap) : TabMap × List Effect :=
  match tab with
  | none => (m, [])
  | some tab =>
      if !strStartsWith tab.url "http" then (m, [])
      else
        match parseHostname tab.url with
        | none => (m, [])
        | some h =>
            if rescanIsLocalhost h then (m, [])
            else
              match outcome with
              | .error _ => (m, [.fullScanRequest (rescanFullScanPayload tab.url)])
              | .ok result =>
                  (tabSet m tab.id (rescanSuccessEntry tab.url result),
                   [.fullScanRequest (rescanFullScanPayload tab.url)] ++
                     setBadgeFromResult
                       ⟨result.riskScore, result.hasPrivacyPolicy⟩ (some tab.id))

/-! ## Link Safety Cache and `checkLinkSafety` -/

/-- Value returned by `checkLinkSafety`. A fresh result is stored and
returned without the `cached` marker (`cached = false` models the
absent field); a cache hit returns the stored result spread with
`cached: true`. -/
structure LinkSafetyResponse where
  riskScore : Int
  status : String
  reason : String
  cached : Bool
deriving DecidableEq, Repr

/-- One entry of `linkSafetyCache`: `{ result, timestamp }`. -/
structure CacheEntry where
  result : LinkSafetyResponse
  timestamp : Int
deriving DecidableEq, Repr

/-- `const linkSafetyCache = new Map()`, keyed by URL. -/
abbrev LinkCache := List (String × CacheEntry)

/-- `linkSafetyCache.get(url)`. -/
def cacheGet (c : LinkCache) (url : String) : Option CacheEntry :=
  (List.find? (fun kv => kv.1 = url) c).map (·.2)

/-- `linkSafetyCache.set(url, entry)`. -/
def cacheSet (c : LinkCache) (url : String) (e : CacheEntry) : LinkCache :=
  (url, e) :: List.filter (fun kv => kv.1 ≠ url) c

/-- The cache's TTL, `5 * 60 * 1000` ms. -/
def linkSafetyTTLms : Int := 5 * 60 * 1000

/-- Body `checkLinkSafety` sends to `postScoutScan`. -/
def linkCheckPayload (url : String) : ScoutScanPayload :=
  { url := url, isLogin := false, hasPrivacyPolicy := false,
    detectedKeywords := [], detectedScam := [], detectedMalware := [] }

/-- The fixed response of `checkLinkSafety`'s catch branch. -/
def linkCheckFailResponse : LinkSafetyResponse :=
  { riskScore := 0, status := "unknown", reason := "Unable to check link",
    cached := false }

/-- The post-cache-miss part of `checkLinkSafety` (its `try`/`catch`):
the quick-scan endpoint is called; a successful result is classified by
risk, stored and returned; a rejection yields the fixed unknown
response without touching the cache. -/
def checkLinkSafetyFresh (url : String) (now : Int)
    (outcome : Except Unit ScanResult) (c : LinkCache) :
    LinkSafetyResponse × LinkCache × List Effect :=
  match outcome with
  | .error _ =>
      (linkCheckFailResponse, c, [.scoutScanRequest (linkCheckPayload url)])
  | .ok result =>
      let riskScore := result.riskScore.getD 0
      let status :=
        if riskScore > 70 then "dangerous"
        else if riskScore ≥ 40 then "suspicious"
        else "safe"
      let fallback :=
        if status = "safe" then "Domain appears safe"
        else "Suspicious indicators detected"
      let reason :=
        match result.explanation with
        | some e => if e.toList.isEmpty then fallback else e
        | none => fallback
      let response : LinkSafetyResponse :=
        { riskScore := riskScore, status := status, reason := reason,
          cached := false }
      (response, cacheSet c url { result := response, timestamp := now },
       [.scoutScanRequest (linkCheckPayload url)])

/-- `checkLinkSafety(url)` at time `now` with the remote call's outcome
as a parameter (unused on a cache hit, where no call is made): a hit
younger than the TTL is returned with `cached: true` and no request;
otherwise the fresh path runs. -/
def checkLinkSafety (url : String) (now : Int)
    (outcome : Except Unit ScanResult) (c : LinkCache) :
    LinkSafetyResponse × LinkCache × List Effect :=
  match cacheGet c url with
  | some entry =>
      if now - entry.timestamp < linkSafetyTTLms then
        ({ entry.result with cached := true }, c, [])
      else checkLinkSafetyFresh url now outcome c
  | none => checkLinkSafetyFresh url now outcome c

/-- The periodic sweep (`setInterval`, every minute): delete every entry
with `now - timestamp > 5 * 60 * 1000`. -/
def sweepLinkCache (now : Int) (c : LinkCache) : LinkCache :=
  List.filter (fun kv => !(decide (now - kv.2.timestamp > linkSafetyTTLms))) c

/-! ## Link Heuristic Filter (`performQuickLinkCheck`, content script) -/

/-- ASCII lower-casing of `String.prototype.toLowerCase` as used on
URLs. -/
def lowerStr (s : String) : String :=
  String.mk (s.toList.map Char.toLower)

/-- `haystack.includes(needle)`: the needle occurs at some position. -/
def strIncludes (haystack needle : String) : Bool :=
  haystack.toList.tails.any (fun t => needle.toList.isPrefixOf t)

/-- The low-trust TLD list of `performQuickLinkCheck`. -/
def suspiciousTLDs : List String :=
  [".tk", ".ml", ".ga", ".cf", ".gq", ".xyz", ".top", ".work", ".click", ".link"]

/-- The urgency keyword list of `performQuickLinkCheck`. -/
def urgencyKeywords : List String :=
  ["urgent", "verify", "suspended", "expires", "confirm", "update",
   "security-alert"]

/-- Scheme part of the regex `https?:\/\/`: consume `http`, an optional
`s`, and `://`. -/
def schemeRest (cs : List Char) : Option (List Char) :=
  match cs with
  | 'h' :: 't' :: 't' :: 'p' :: rest =>
      match rest with
      | 's' :: ':' :: '/' :: '/' :: tail => some tail
      | ':' :: '/' :: '/' :: tail => some tail
      | _ => none
  | _ => none

/-- One `\d{1,3}\.` group of the regex: with backtracking, it matches
exactly when the run of digits at the head has length 1 to 3 and is
followed by a literal dot. -/
def octetThenDot (cs : List Char) : Option (List Char) :=
  let ds := cs.takeWhile Char.isDigit
  let rest := cs.drop ds.length
  if 1 ≤ ds.length && ds.length ≤ 3 then
    match rest with
    | '.' :: tail => some tail
    | _ => none
  else none

/-- The regex `/https?:\/\/\d{1,3}\.\d{1,3}\.\d{1,3}\.\d{1,3}/`
matching at the head of a character list. -/
def ipv4AtHead (cs : List Char) : Bool :=
  match schemeRest cs with
  | none => false
  | some r0 =>
      match octetThenDot r0 with
      | none => false
      | some r1 =>
          match octetThenDot r1 with
          | none => false
          | some r2 =>
              match octetThenDot r2 with
              | none => false
              | some r3 => !(r3.takeWhile Char.isDigit).isEmpty

/-- `ipPattern.test(url)`: the unanchored regex matches at some
position. -/
def ipPatternTest (url : String) : Bool :=
  url.toList.tails.any ipv4AtHead

/-- Return shape of `performQuickLinkCheck`; the non-suspicious return
carries neither `risk` nor `reason`. -/
structure QuickCheckResult where
  suspicious : Bool
  risk : Option Int
  reason : Option String
deriving DecidableEq, Repr

/-- `performQuickLinkCheck(url)`: first matching rule returns — TLD
substring in the lower-cased URL, urgency substring, the IPv4 regex on
the raw URL, then the subdomain count of the parsed host (a throwing
`new URL` falls through to the non-suspicious return). -/
def performQuickLinkCheck (url : String) : QuickCheckResult :=
  let urlLower := lowerStr url
  match suspiciousTLDs.find? (fun tld => strIncludes urlLower tld) with
  | some tld =>
      ⟨true, some 75,
        some ("Suspicious domain extension (" ++ tld ++ ") - often used in scams")⟩
  | none =>
      match urgencyKeywords.find? (fun kw => strIncludes urlLower kw) with
      | some kw =>
          ⟨true, some 60,
            some ("Urgency trigger in URL (\"" ++ kw ++ "\") - common phishing tactic")⟩
      | none =>
          if ipPatternTest url then
            ⟨true, some 70, some "Link uses IP address instead of domain - suspicious"⟩
          else
            match parseHostname url with
            | some h =>
                if (hostLabels h).length > 4 then
                  ⟨true, some 55, some "Unusual number of subdomains - verify legitimacy"⟩
                else ⟨false, none, none⟩
            | none => ⟨false, none, none⟩

/-! ## Spec-side vocabulary

Definitions that restate conditions in the words of the specification,
kept separate from the source embedding so that agreement or
disagreement between the two is a theorem, not a definition. -/

/-- Spec wording: any known low-trust TLD string occurs in the
lower-cased URL. -/
def hasLowTrustTLD (url : String) : Bool :=
  suspiciousTLDs.any (fun tld => strIncludes (lowerStr url) tld)

/-- Spec wording: urgency vocabulary is present in the URL string
itself. -/
def hasUrgencyWord (url : String) : Bool :=
  urgencyKeywords.any (fun kw => strIncludes (lowerStr url) kw)

/-- Spec wording: the parsed host has more than four dot-separated
labels. -/
def manyHostLabels (url : String) : Bool :=
  match parseHostname url with
  | some h => decide ((hostLabels h).length > 4)
  | none => false

/-- Spec wording: a host that is a bare IPv4 literal — exactly four
dot-separated groups of one to three digits. -/
def isBareIPv4 (h : String) : Bool :=
  let parts := hostLabels h
  parts.length = 4 &&
    parts.all (fun p =>
      1 ≤ p.toList.length && p.toList.length ≤ 3 && p.toList.all Char.isDigit)

/-- Modelled from the claim's wording of the Link Heuristic Filter, for
comparison with `performQuickLinkCheck`: same rule order and outputs,
but rule 3 fires only when the parsed URL host is a bare IPv4 literal
(rather than the source's substring regex on the whole URL). -/
def quickCheckClaimed (url : String) : QuickCheckResult :=
  let urlLower := lowerStr url
  match suspiciousTLDs.find? (fun tld => strIncludes urlLower tld) with
  | some tld =>
      ⟨true, some 75,
        some ("Suspicious domain extension (" ++ tld ++ ") - often used in scams")⟩
  | none =>
      match urgencyKeywords.find? (fun kw => strIncludes urlLower kw) with
      | some kw =>
          ⟨true, some 60,
            some ("Urgency trigger in URL (\"" ++ kw ++ "\") - common phishing tactic")⟩
      | none =>
          match parseHostname url with
          | some h =>
              if isBareIPv4 h then
                ⟨true, some 70, some "Link uses IP address instead of domain - suspicious"⟩
              else if (hostLabels h).length > 4 then
                ⟨true, some 55, some "Unusual number of subdomains - verify legitimacy"⟩
              else ⟨false, none, none⟩
          | none => ⟨false, none, none⟩

/-- Spec wording: a voice-alert reference is present on the result
(either spelling, non-empty). -/
def hasVoiceAlertRef (result : ScanResult) : Bool :=
  strTruthy result.voiceAlert || strTruthy result.voice_alert

/-! ## Helper lemmas -/

theorem strTruthy_jsOrStr (a b : Option String) :
    strTruthy (jsOrStr a b) = (strTruthy a || strTruthy b) := by
  unfold jsOrStr
  by_cases h : strTruthy a = true
  · simp [h]
  · simp [Bool.not_eq_true] at h
    simp [h]

theorem tabGet_tabSet_self (m : TabMap) (t : Nat) (e : TabEntry) :
    tabGet (tabSet m t e) t = some e := by
  simp [tabGet, tabSet, List.find?]

theorem find?_filter_of_imp {α : Type} (l : List α) (p q : α → Bool)
    (h : ∀ x, p x = true → q x = true) :
    List.find? p (List.filter q l) = List.find? p l := by
  induction l with
  | nil => rfl
  | cons x xs ih =>
      by_cases hq : q x = true
      · by_cases hp : p x = true
        · simp [List.filter, hq, List.find?, hp]
        · simp only [Bool.not_eq_true] at hp
          simp [List.filter, hq, List.find?, hp, ih]
      · have hp : p x = false := by
          cases hpx : p x with
          | false => rfl
          | true => exact absurd (h x hpx) hq
        simp only [Bool.not_eq_true] at hq
        simp [List.filter, hq, List.find?, hp, ih]

theorem tabGet_tabSet_other (m : TabMap) (t t' : Nat) (e : TabEntry)
    (h : t' ≠ t) :
    tabGet (tabSet m t e) t' = tabGet m t' := by
  unfold tabGet tabSet
  rw [List.find?]
  have hne : (decide ((t, e).1 = t')) = false := by
    simp [h.symm]
  rw [hne]
  rw [find?_filter_of_imp]
  intro kv hkv
  simp only [decide_eq_true_eq] at hkv
  simp only [hkv, ne_eq, decide_eq_true_eq]
  exact h

theorem cacheGet_cacheSet_self (c : LinkCache) (url : String) (e : CacheEntry) :
    cacheGet (cacheSet c url e) url = some e := by
  simp [cacheGet, cacheSet, List.find?]

theorem voicePlayCount_append (a b : List Effect) :
    voicePlayCount (a ++ b) = voicePlayCount a + voicePlayCount b := by
  simp [voicePlayCount, List.countP_append]

theorem voicePlayCount_playHighRiskVoiceAlert (v : Option String) :
    voicePlayCount (playHighRiskVoiceAlert v) = if strTruthy v then 1 else 0 := by
  cases v with
  | none => simp [playHighRiskVoiceAlert, strTruthy, voicePlayCount]
  | some s =>
      by_cases hs : s.data = []
      · simp [playHighRiskVoiceAlert, strTruthy, voicePlayCount, String.toList, hs]
      · simp [playHighRiskVoiceAlert, strTruthy, voicePlayCount, String.toList, hs,
          List.countP, List.countP.go]

theorem any_false_find?_none {α : Type} (l : List α) (p : α → Bool)
    (h : l.any p = false) : l.find? p = none := by
  rw [List.find?_eq_none]
  intro x hx hpx
  have hT : l.any p = true := List.any_eq_true.mpr ⟨x, hx, hpx⟩
  rw [h] at hT
  exact Bool.false_ne_true hT

theorem any_true_find?_isSome {α : Type} (l : List α) (p : α → Bool)
    (h : l.any p = true) : (l.find? p).isSome := by
  obtain ⟨x, hx, hpx⟩ := List.any_eq_true.mp h
  exact List.find?_isSome.mpr ⟨x, hx, hpx⟩

theorem checkLinkSafety_miss (url : String) (now : Int)
    (outcome : Except Unit ScanResult) (c : LinkCache)
    (h : cacheGet c url = none) :
    checkLinkSafety url now outcome c = checkLinkSafetyFresh url now outcome c := by
  simp [checkLinkSafety, h]

theorem checkLinkSafety_hit (url : String) (now : Int)
    (outcome : Except Unit ScanResult) (c : LinkCache) (entry : CacheEntry)
    (h : cacheGet c url = some entry)
    (ht : now - entry.timestamp < linkSafetyTTLms) :
    checkLinkSafety url now outcome c =
      ({ entry.result with cached := true }, c, []) := by
  simp [checkLinkSafety, h, ht]

theorem checkLinkSafety_stale (url : String) (now : Int)
    (outcome : Except Unit ScanResult) (c : LinkCache) (entry : CacheEntry)
    (h : cacheGet c url = some entry)
    (ht : ¬(now - entry.timestamp < linkSafetyTTLms)) :
    checkLinkSafety url now outcome c = checkLinkSafetyFresh url now outcome c := by
  simp [checkLinkSafety, h, ht]

theorem checkLinkSafetyFresh_effects (url : String) (now : Int)
    (outcome : Except Unit ScanResult) (c : LinkCache) :
    (checkLinkSafetyFresh url now outcome c).2.2 =
      [.scoutScanRequest (linkCheckPayload url)] := by
  cases outcome <;> rfl

/-! ## Concrete inputs used by counterexamples and witnesses -/

/-- First (older) scan's signal in the stale-response interleaving. -/
def c1sigA : ScoutSignal :=
  { url := "http://a.example/", isLogin := false, hasPrivacyPolicy := false,
    detectedKeywords := [] }

/-- Second (newer) scan's signal in the stale-response interleaving. -/
def c1sigB : ScoutSignal :=
  { url := "http://b.example/", isLogin := false, hasPrivacyPolicy := true,
    detectedKeywords := [] }

/-- Result answering the older scan (arrives last). -/
def c1resA : ScanResult :=
  { riskScore := some 10, hasPrivacyPolicy := false, voiceAlert := none,
    voice_alert := none, explanation := none }

/-- Result answering the newer scan (arrives first). -/
def c1resB : ScanResult :=
  { riskScore := some 95, hasPrivacyPolicy := false, voiceAlert := none,
    voice_alert := none, explanation := none }

/-- Scan B is dispatched while scan A is still pending; B's response
arrives, then A's stale response arrives last. -/
def c1events : List TabEvent :=
  [.request c1sigA (some 1), .request c1sigB (some 1),
   .response c1sigB (some 1) (.ok c1resB),
   .response c1sigA (some 1) (.ok c1resA)]

/-- Tab state store after the interleaving of `c1events`. -/
def c1final : TabMap := runEvents [] c1events

/-- URL whose host is not a bare IPv4 literal but whose prefix matches
the source's IP regex. -/
def c4Url : String := "https://1.2.3.4.evil.com/login"

/-- Scan result delivering `hasPrivacyPolicy = true` from the remote
side. -/
def c7Result : ScanResult :=
  { riskScore := some 10, hasPrivacyPolicy := true, voiceAlert := none,
    voice_alert := none, explanation := none }

/-- Page-load signal for the same URL whose extractor found no privacy
policy. -/
def c7Signal : ScoutSignal :=
  { url := "https://news.example/", isLogin := false,
    hasPrivacyPolicy := false, detectedKeywords := [] }

/-- Focused tab the rescanner resolves. -/
def c7Tab : ActiveTab := { id := 3, url := "https://news.example/" }

/-- Signal of the scan whose success write precedes the failure
write. -/
def c9Signal : ScoutSignal :=
  { url := "https://shop.example/", isLogin := false,
    hasPrivacyPolicy := true, detectedKeywords := [] }

/-- Result stored by the success write. -/
def c9Result : ScanResult :=
  { riskScore := some 42, hasPrivacyPolicy := false, voiceAlert := none,
    voice_alert := none, explanation := none }

/-- Store after the successful scan for tab 1. -/
def c9AfterSuccess : TabMap :=
  (scoutResponsePhase c9Signal (some 1) (.ok c9Result) []).1

/-- Store after a subsequent failed scan for the same tab. -/
def c9AfterFailure : TabMap :=
  (scoutResponsePhase c9Signal (some 1) (.error "backend down") c9AfterSuccess).1

/-- Result used by the cache round-trip witness. -/
def c5wRes : ScanResult :=
  { riskScore := some 10, hasPrivacyPolicy := false, voiceAlert := none,
    voice_alert := none, explanation := none }

/-! ## Claims -/

/-- C1, counterexample: two scans for tab 1 where the second supersedes
the first before the first's response arrives; the first's response
arrives last and its write survives, so the final TabState carries the
first (stale) scan's URL and result, not the second's — there is no
stale-response check in `handleScoutSignal`. -/
theorem c1_stale_response_counterexample :
    (tabGet c1final 1).map TabEntry.url = some c1sigA.url ∧
    (tabGet c1final 1).map TabEntry.fullResult = some (some c1resA) ∧
    c1sigA.url ≠ c1sigB.url := by
  refine ⟨rfl, rfl, by decide⟩

/-- C1, amended: `handleScoutSignal` captures the tab id and signal at
request time but never compares the response against the tab's current
URL; a settled response writes its entry unconditionally, so responses
apply in arrival order and the last-arriving response wins — in the
superseding interleaving the final TabState is the one of the stale
first scan. -/
theorem c1_last_response_wins (sa sb : ScoutSignal) (t : Nat)
    (oa ob : Except String ScanResult) (m : TabMap) :
    tabGet (runEvents m
      [.request sa (some t), .request sb (some t),
       .response sb (some t) ob, .response sa (some t) oa]) t =
      some (entryOfOutcome sa oa) ∧
    (∀ (sig : ScoutSignal) (o : Except String ScanResult) (m' : TabMap),
      tabGet (scoutResponsePhase sig (some t) o m').1 t =
        some (entryOfOutcome sig o)) := by
  have hresp : ∀ (sig : ScoutSignal) (o : Except String ScanResult) (m' : TabMap),
      tabGet (scoutResponsePhase sig (some t) o m').1 t =
        some (entryOfOutcome sig o) := by
    intro sig o m'
    cases o with
    | ok r =>
        show tabGet (tabSet m' t (successEntry sig r)) t = _
        rw [tabGet_tabSet_self]; rfl
    | error msg =>
        show tabGet (tabSet m' t (failureEntry sig)) t = _
        rw [tabGet_tabSet_self]; rfl
  refine ⟨?_, hresp⟩
  show tabGet (scoutResponsePhase sa (some t) oa
    (stepEvent (stepEvent (stepEvent m (.request sa (some t)))
      (.request sb (some t))) (.response sb (some t) ob))).1 t = _
  exact hresp sa oa _

/-- C2: the badge is a pure function of `(riskScore, hasPrivacyPolicy)`
— `DANGER` iff `riskScore > 70`, `PRIVACY` iff `riskScore <= 70` with
the privacy flag, `SAFE` otherwise; including the four documented
sample points. -/
theorem c2_badge_state_machine (r : BadgeInput) :
    (badgeOfResult r = DANGER ↔ r.riskScore.getD 0 > 70) ∧
    (badgeOfResult r = PRIVACY ↔
      (r.riskScore.getD 0 ≤ 70 ∧ r.hasPrivacyPolicy = true)) ∧
    (badgeOfResult r = SAFE ↔
      (r.riskScore.getD 0 ≤ 70 ∧ r.hasPrivacyPolicy = false)) ∧
    badgeOfResult ⟨some 85, true⟩ = DANGER ∧
    badgeOfResult ⟨some 20, true⟩ = PRIVACY ∧
    badgeOfResult ⟨some 10, false⟩ = SAFE ∧
    badgeOfResult ⟨some 45, false⟩ = SAFE := by
  obtain ⟨rs, hp⟩ := r
  have hDP : (DANGER = PRIVACY) ↔ False := iff_false_intro (by decide)
  have hDS : (DANGER = SAFE) ↔ False := iff_false_intro (by decide)
  have hPD : (PRIVACY = DANGER) ↔ False := iff_false_intro (by decide)
  have hPS : (PRIVACY = SAFE) ↔ False := iff_false_intro (by decide)
  have hSD : (SAFE = DANGER) ↔ False := iff_false_intro (by decide)
  have hSP : (SAFE = PRIVACY) ↔ False := iff_false_intro (by decide)
  refine ⟨?_, ?_, ?_, by decide, by decide, by decide, by decide⟩ <;>
    rcases Classical.em (rs.getD 0 > 70) with h70 | h70 <;> cases hp <;>
      simp [badgeOfResult, h70, hDP, hDS, hPD, hPS, hSD, hSP] <;> omega

/-- C3: a signal whose URL parses to a `localhost`/`127.0.0.1`/`*.local`
host is short-circuited — no network request, the LOCALHOST_SAFE badge,
a minimal tab entry with `skippedReason = "localhost"` and risk 0, and
an early return; any other signal (including an unparsable URL)
proceeds to the scanning badge and the full-pipeline request. -/
theorem c3_localhost_skip (signal : ScoutSignal) (t : Nat) (m : TabMap) :
    (∀ h, parseHostname signal.url = some h → isLocalhostHost h = true →
      scoutRequestPhase signal (some t) m =
        .earlyReturn (tabSet m t (localhostEntry signal.url))
          (localhostBadgeEffects (some t)) ∧
      remoteCallCount (localhostBadgeEffects (some t)) = 0 ∧
      tabGet (tabSet m t (localhostEntry signal.url)) t =
        some { url := signal.url, riskScore := some 0, hasPrivacyPolicy := false,
               fullResult := none, skippedReason := some "localhost" }) ∧
    ((∀ h, parseHostname signal.url = some h → isLocalhostHost h = false) →
      scoutRequestPhase signal (some t) m =
        .pending m (setBadgeScanning (some t) ++
          [.fullScanRequest (scoutFullScanPayload signal.url)]) signal (some t)) := by
  constructor
  · intro h hp hl
    refine ⟨?_, by simp [remoteCallCount, localhostBadgeEffects, List.countP,
        List.countP.go], ?_⟩
    · simp [scoutRequestPhase, hp, hl, tabSetOpt]
    · rw [tabGet_tabSet_self]; rfl
  · intro hno
    cases hp : parseHostname signal.url with
    | none => simp [scoutRequestPhase, hp]
    | some h => simp [scoutRequestPhase, hp, hno h hp]

/-- Witness for C3 at a localhost URL and an ordinary URL. -/
theorem c3_localhost_skip_witness :
    scoutRequestPhase ⟨"http://localhost:8000/app", false, false, []⟩ (some 7) [] =
      .earlyReturn (tabSet [] 7 (localhostEntry "http://localhost:8000/app"))
        (localhostBadgeEffects (some 7)) ∧
    scoutRequestPhase ⟨"https://example.com/", false, true, []⟩ (some 7) [] =
      .pending [] (setBadgeScanning (some 7) ++
        [.fullScanRequest (scoutFullScanPayload "https://example.com/")])
        ⟨"https://example.com/", false, true, []⟩ (some 7) := by
  constructor
  · exact ((c3_localhost_skip ⟨"http://localhost:8000/app", false, false, []⟩
      7 []).1 "localhost" (by decide) (by decide)).1
  · refine (c3_localhost_skip ⟨"https://example.com/", false, true, []⟩ 7 []).2 ?_
    intro h hp
    have he : parseHostname "https://example.com/" = some "example.com" := by decide
    rw [he] at hp
    injection hp with hh
    rw [← hh]
    decide

/-- C4, counterexample: on `https://1.2.3.4.evil.com/login` the host is
not a bare IPv4 literal and has six labels, so the claim's rule order
yields the moderate subdomain result; the source's regex fires on the
URL prefix and returns the high IP-address result instead. -/
theorem c4_quick_check_counterexample :
    performQuickLinkCheck c4Url =
      ⟨true, some 70, some "Link uses IP address instead of domain - suspicious"⟩ ∧
    quickCheckClaimed c4Url =
      ⟨true, some 55, some "Unusual number of subdomains - verify legitimacy"⟩ ∧
    parseHostname c4Url = some "1.2.3.4.evil.com" ∧
    isBareIPv4 "1.2.3.4.evil.com" = false ∧
    performQuickLinkCheck c4Url ≠ quickCheckClaimed c4Url := by
  refine ⟨by decide, by decide, by decide, by decide, by decide⟩

/-- C4, amended: the four rules apply in fixed order with first match
winning and no summation, where rule 1 and rule 2 are substring tests
on the lower-cased URL, rule 3 is the IPv4-after-scheme pattern on the
raw URL (which may fire when further host labels follow the dotted
quad), and rule 4 counts the parsed host's labels; when no rule
matches, the non-suspicious result is returned. The function is a pure
function of the URL and touches no cache. -/
theorem c4_quick_check_rules (url : String) :
    (hasLowTrustTLD url = true →
      (performQuickLinkCheck url).suspicious = true ∧
      (performQuickLinkCheck url).risk = some 75) ∧
    (hasLowTrustTLD url = false → hasUrgencyWord url = true →
      (performQuickLinkCheck url).suspicious = true ∧
      (performQuickLinkCheck url).risk = some 60) ∧
    (hasLowTrustTLD url = false → hasUrgencyWord url = false →
      ipPatternTest url = true →
      performQuickLinkCheck url =
        ⟨true, some 70, some "Link uses IP address instead of domain - suspicious"⟩) ∧
    (hasLowTrustTLD url = false → hasUrgencyWord url = false →
      ipPatternTest url = false → manyHostLabels url = true →
      performQuickLinkCheck url =
        ⟨true, some 55, some "Unusual number of subdomains - verify legitimacy"⟩) ∧
    (hasLowTrustTLD url = false → hasUrgencyWord url = false →
      ipPatternTest url = false → manyHostLabels url = false →
      performQuickLinkCheck url = ⟨false, none, none⟩) := by
  refine ⟨?_, ?_, ?_, ?_, ?_⟩
  · intro h1
    unfold hasLowTrustTLD at h1
    have hsome := any_true_find?_isSome _ _ h1
    cases hf : suspiciousTLDs.find? (fun tld => strIncludes (lowerStr url) tld) with
    | none => rw [hf] at hsome; exact absurd hsome (by simp)
    | some tld => constructor <;> simp [performQuickLinkCheck, hf]
  · intro h1 h2
    unfold hasLowTrustTLD at h1
    unfold hasUrgencyWord at h2
    have hf1 := any_false_find?_none _ _ h1
    have hsome := any_true_find?_isSome _ _ h2
    cases hf2 : urgencyKeywords.find? (fun kw => strIncludes (lowerStr url) kw) with
    | none => rw [hf2] at hsome; exact absurd hsome (by simp)
    | some kw => constructor <;> simp [performQuickLinkCheck, hf1, hf2]
  · intro h1 h2 h3
    unfold hasLowTrustTLD at h1
    unfold hasUrgencyWord at h2
    have hf1 := any_false_find?_none _ _ h1
    have hf2 := any_false_find?_none _ _ h2
    simp [performQuickLinkCheck, hf1, hf2, h3]
  · intro h1 h2 h3 h4
    unfold hasLowTrustTLD at h1
    unfold hasUrgencyWord at h2
    have hf1 := any_false_find?_none _ _ h1
    have hf2 := any_false_find?_none _ _ h2
    unfold manyHostLabels at h4
    cases hp : parseHostname url with
    | none => rw [hp] at h4; exact absurd h4 (by simp)
    | some h =>
        rw [hp] at h4
        have hlen := of_decide_eq_true h4
        simp [performQuickLinkCheck, hf1, hf2, h3, hp, hlen]
  · intro h1 h2 h3 h4
    unfold hasLowTrustTLD at h1
    unfold hasUrgencyWord at h2
    have hf1 := any_false_find?_none _ _ h1
    have hf2 := any_false_find?_none _ _ h2
    unfold manyHostLabels at h4
    cases hp : parseHostname url with
    | none => simp [performQuickLinkCheck, hf1, hf2, h3, hp]
    | some h =>
        rw [hp] at h4
        have hlen : ¬((hostLabels h).length > 4) := of_decide_eq_false h4
        simp [performQuickLinkCheck, hf1, hf2, h3, hp, hlen]

/-- Witness for C4 at a low-trust-TLD URL and at a clean URL. -/
theorem c4_quick_check_rules_witness :
    (performQuickLinkCheck "https://example.tk/").risk = some 75 ∧
    performQuickLinkCheck "https://example.com/" = ⟨false, none, none⟩ := by
  constructor
  · exact ((c4_quick_check_rules "https://example.tk/").1 (by decide)).2
  · exact (c4_quick_check_rules "https://example.com/").2.2.2.2
      (by decide) (by decide) (by decide) (by decide)

/-- C5: storing a link-safety result and looking the same URL up again
within the TTL returns the same result annotated `cached: true` with no
new remote request; once more than the TTL has elapsed, the sweep
evicts the entry and the next lookup takes the remote path again. -/
theorem c5_link_cache_roundtrip (url : String) (t1 t2 t3 : Int)
    (r r2 r3 : ScanResult) (c : LinkCache)
    (hmiss : cacheGet c url = none)
    (hfresh : t2 - t1 < linkSafetyTTLms)
    (hexp : t3 - t1 > linkSafetyTTLms) :
    checkLinkSafety url t2 (.ok r2) (checkLinkSafety url t1 (.ok r) c).2.1 =
      ({ (checkLinkSafety url t1 (.ok r) c).1 with cached := true },
       (checkLinkSafety url t1 (.ok r) c).2.1, []) ∧
    cacheGet (sweepLinkCache t3 (checkLinkSafety url t1 (.ok r) c).2.1) url = none ∧
    (checkLinkSafety url t3 (.ok r3)
        (sweepLinkCache t3 (checkLinkSafety url t1 (.ok r) c).2.1)).2.2 =
      [.scoutScanRequest (linkCheckPayload url)] := by
  have h1 : checkLinkSafety url t1 (.ok r) c = checkLinkSafetyFresh url t1 (.ok r) c :=
    checkLinkSafety_miss url t1 (.ok r) c hmiss
  have hstore : (checkLinkSafety url t1 (.ok r) c).2.1 =
      cacheSet c url ⟨(checkLinkSafety url t1 (.ok r) c).1, t1⟩ := by
    rw [h1]; rfl
  have hswept : cacheGet (sweepLinkCache t3 (checkLinkSafety url t1 (.ok r) c).2.1) url = none := by
    rw [hstore]
    have hnone : List.find? (fun kv => kv.1 = url)
        (sweepLinkCache t3 (cacheSet c url ⟨(checkLinkSafety url t1 (.ok r) c).1, t1⟩)) = none := by
      rw [List.find?_eq_none]
      intro x hx
      unfold sweepLinkCache cacheSet at hx
      rw [List.mem_filter] at hx
      obtain ⟨hx1, hx2⟩ := hx
      rcases List.mem_cons.mp hx1 with hx1 | hx1
      · exfalso
        rw [hx1] at hx2
        rw [Bool.not_eq_true'] at hx2
        exact (of_decide_eq_false hx2) hexp
      · rw [List.mem_filter] at hx1
        obtain ⟨_, hq⟩ := hx1
        intro hcontra
        exact (of_decide_eq_true hq) (of_decide_eq_true hcontra)
    show (List.find? (fun kv => kv.1 = url)
      (sweepLinkCache t3 (cacheSet c url ⟨(checkLinkSafety url t1 (.ok r) c).1, t1⟩))).map (·.2) = none
    rw [hnone]
    rfl
  refine ⟨?_, hswept, ?_⟩
  · rw [hstore]
    rw [checkLinkSafety_hit url t2 (.ok r2) _ _ (cacheGet_cacheSet_self ..) hfresh]
  · rw [checkLinkSafety_miss url t3 (.ok r3) _ hswept]
    exact checkLinkSafetyFresh_effects ..

/-- Witness for C5: a miss at time 0, a hit at 60 s, eviction at just
over 5 minutes. -/
theorem c5_link_cache_roundtrip_witness :
    cacheGet ([] : LinkCache) "https://example.org/" = none ∧
    (60000 : Int) - 0 < linkSafetyTTLms ∧
    (300001 : Int) - 0 > linkSafetyTTLms ∧
    (checkLinkSafety "https://example.org/" 60000 (.ok c5wRes)
        (checkLinkSafety "https://example.org/" 0 (.ok c5wRes) []).2.1 =
      ({ (checkLinkSafety "https://example.org/" 0 (.ok c5wRes) []).1 with cached := true },
       (checkLinkSafety "https://example.org/" 0 (.ok c5wRes) []).2.1, []) ∧
     cacheGet (sweepLinkCache 300001
        (checkLinkSafety "https://example.org/" 0 (.ok c5wRes) []).2.1)
        "https://example.org/" = none ∧
     (checkLinkSafety "https://example.org/" 300001 (.ok c5wRes)
        (sweepLinkCache 300001
          (checkLinkSafety "https://example.org/" 0 (.ok c5wRes) []).2.1)).2.2 =
       [.scoutScanRequest (linkCheckPayload "https://example.org/")]) :=
  ⟨rfl, by decide, by decide,
   c5_link_cache_roundtrip "https://example.org/" 0 60000 300001
     c5wRes c5wRes c5wRes [] rfl (by decide) (by decide)⟩

/-- C6: when the full-pipeline call fails, the tab's entry becomes the
riskScore-0 record with no result payload, the fail-open badge is the
one computed for a riskScore-0 result with the signal's privacy flag,
the caller receives the error object, and no further network request is
made. -/
theorem c6_scan_failure_fail_open (signal : ScoutSignal) (t : Nat)
    (msg : String) (m : TabMap) :
    tabGet (scoutResponsePhase signal (some t) (.error msg) m).1 t =
      some { url := signal.url, riskScore := some 0,
             hasPrivacyPolicy := signal.hasPrivacyPolicy,
             fullResult := none, skippedReason := none } ∧
    (scoutResponsePhase signal (some t) (.error msg) m).2 =
      setBadgeFromResult ⟨some 0, signal.hasPrivacyPolicy⟩ (some t) ++
        [.respond (.err msg 0 signal.hasPrivacyPolicy)] ∧
    remoteCallCount (scoutResponsePhase signal (some t) (.error msg) m).2 = 0 ∧
    voicePlayCount (scoutResponsePhase signal (some t) (.error msg) m).2 = 0 := by
  refine ⟨?_, rfl, ?_, ?_⟩
  · show tabGet (tabSet m t (failureEntry signal)) t = _
    rw [tabGet_tabSet_self]; rfl
  · show remoteCallCount (setBadgeFromResult ⟨some 0, signal.hasPrivacyPolicy⟩ (some t) ++
      [.respond (.err msg 0 signal.hasPrivacyPolicy)]) = 0
    simp [remoteCallCount, setBadgeFromResult, List.countP, List.countP.go]
  · show voicePlayCount (setBadgeFromResult ⟨some 0, signal.hasPrivacyPolicy⟩ (some t) ++
      [.respond (.err msg 0 signal.hasPrivacyPolicy)]) = 0
    simp [voicePlayCount, setBadgeFromResult, List.countP, List.countP.go]

/-- C7, counterexample: for the same URL and the same remote result, the
rescanner's TabState write and the page-load scan's write differ — the
rescanner takes `hasPrivacyPolicy` from the remote result (here `true`)
while `handleScoutSignal` preserves it from the page's signal (here
`false`), so the rescanner does not update TabState identically. -/
theorem c7_rescan_counterexample :
    tabGet (rescanTick (some c7Tab) (.ok c7Result) []).1 3 =
      some (rescanSuccessEntry "https://news.example/" c7Result) ∧
    tabGet (handleScoutSignal c7Signal (some 3) (.ok c7Result) []).1 3 =
      some (successEntry c7Signal c7Result) ∧
    (rescanSuccessEntry "https://news.example/" c7Result).hasPrivacyPolicy = true ∧
    (successEntry c7Signal c7Result).hasPrivacyPolicy = false ∧
    tabGet (rescanTick (some c7Tab) (.ok c7Result) []).1 3 ≠
      tabGet (handleScoutSignal c7Signal (some 3) (.ok c7Result) []).1 3 := by
  refine ⟨by decide, by decide, by decide, by decide, by decide⟩

/-- C7, amended: the rescanner applies the same localhost rule and sends
the same full-pipeline payload as a page-load scan, and its success
update equals the page-load update for a surrogate signal carrying the
result's `hasPrivacyPolicy` — i.e. it takes the privacy flag from the
remote result (it has no page signal), so the two paths coincide
exactly when signal and result agree on that flag. -/
theorem c7_rescan_refinement (url h : String) (result : ScanResult)
    (t : Nat) (m : TabMap)
    (hhttp : strStartsWith url "http" = true)
    (hp : parseHostname url = some h)
    (hl : rescanIsLocalhost h = false) :
    rescanTick (some ⟨t, url⟩) (.ok result) m =
      (tabSet m t (rescanSuccessEntry url result),
       [.fullScanRequest (rescanFullScanPayload url)] ++
         setBadgeFromResult ⟨result.riskScore, result.hasPrivacyPolicy⟩ (some t)) ∧
    (∀ g, rescanIsLocalhost g = isLocalhostHost g) ∧
    rescanFullScanPayload url = scoutFullScanPayload url ∧
    rescanSuccessEntry url result =
      successEntry ⟨url, false, result.hasPrivacyPolicy, []⟩ result := by
  refine ⟨?_, fun g => rfl, rfl, rfl⟩
  simp [rescanTick, hhttp, hp, hl]

/-- Witness for C7 at an ordinary https URL. -/
theorem c7_rescan_refinement_witness :
    strStartsWith "https://news.example/" "http" = true ∧
    parseHostname "https://news.example/" = some "news.example" ∧
    rescanIsLocalhost "news.example" = false ∧
    rescanTick (some ⟨3, "https://news.example/"⟩) (.ok c7Result) [] =
      (tabSet [] 3 (rescanSuccessEntry "https://news.example/" c7Result),
       [.fullScanRequest (rescanFullScanPayload "https://news.example/")] ++
         setBadgeFromResult ⟨c7Result.riskScore, c7Result.hasPrivacyPolicy⟩ (some 3)) :=
  ⟨by decide, by decide, by decide,
   (c7_rescan_refinement "https://news.example/" "news.example" c7Result 3 []
     (by decide) (by decide) (by decide)).1⟩

/-- C8: on a successful page scan the Audio Alert Bridge is invoked
exactly once when `riskScore >= 70` (missing treated as 0) and a
voice-alert reference is present, and zero times otherwise; the
link-safety path — the only cache-replay path — never invokes it. -/
theorem c8_voice_alert_once (signal : ScoutSignal) (tabId : Option Nat)
    (result : ScanResult) (m : TabMap) :
    voicePlayCount (scoutResponsePhase signal tabId (.ok result) m).2 =
      (if result.riskScore.getD 0 ≥ 70 ∧ hasVoiceAlertRef result = true
       then 1 else 0) ∧
    (∀ url now outcome c, voicePlayCount (checkLinkSafety url now outcome c).2.2 = 0) := by
  constructor
  · have hbadge : ∀ (b : BadgeInput) (tid : Option Nat),
        voicePlayCount (setBadgeFromResult b tid) = 0 := by
      intro b tid
      simp [voicePlayCount, setBadgeFromResult, List.countP, List.countP.go]
    have hresp : voicePlayCount [Effect.respond (.ok result)] = 0 := by
      simp [voicePlayCount, List.countP, List.countP.go]
    show voicePlayCount (setBadgeFromResult ⟨result.riskScore, signal.hasPrivacyPolicy⟩ tabId ++
      (if result.riskScore.getD 0 ≥ 70 &&
          strTruthy (jsOrStr result.voiceAlert result.voice_alert) then
        playHighRiskVoiceAlert (jsOrStr result.voiceAlert result.voice_alert)
      else []) ++ [Effect.respond (.ok result)]) = _
    rw [voicePlayCount_append, voicePlayCount_append, hbadge, hresp,
      Nat.zero_add, Nat.add_zero]
    by_cases hc : (result.riskScore.getD 0 ≥ 70 &&
        strTruthy (jsOrStr result.voiceAlert result.voice_alert)) = true
    · rw [if_pos hc, voicePlayCount_playHighRiskVoiceAlert]
      rw [Bool.and_eq_true] at hc
      obtain ⟨h1, h2⟩ := hc
      rw [if_pos h2, if_pos ⟨of_decide_eq_true h1, by
        unfold hasVoiceAlertRef
        rw [← strTruthy_jsOrStr]
        exact h2⟩]
    · rw [if_neg hc, if_neg]
      · rfl
      · rintro ⟨h1, h2⟩
        apply hc
        rw [Bool.and_eq_true]
        refine ⟨decide_eq_true h1, ?_⟩
        rw [strTruthy_jsOrStr]
        unfold hasVoiceAlertRef at h2
        exact h2
  · intro url now outcome c
    have hfresh : voicePlayCount (checkLinkSafetyFresh url now outcome c).2.2 = 0 := by
      cases outcome with
      | error e => simp [checkLinkSafetyFresh, voicePlayCount, List.countP, List.countP.go]
      | ok r => simp [checkLinkSafetyFresh, voicePlayCount, List.countP, List.countP.go]
    cases hcg : cacheGet c url with
    | none =>
        rw [checkLinkSafety_miss url now outcome c hcg]
        exact hfresh
    | some entry =>
        by_cases ht : now - entry.timestamp < linkSafetyTTLms
        · rw [checkLinkSafety_hit url now outcome c entry hcg ht]
          rfl
        · rw [checkLinkSafety_stale url now outcome c entry hcg ht]
          exact hfresh

/-- C9, counterexample: a successful scan stores `fullResult`; a
subsequent failure write for the same tab sets riskScore 0 and drops
the previously stored `fullResult` — the store has replace semantics,
not the claimed merge semantics. -/
theorem c9_merge_counterexample :
    (tabGet c9AfterSuccess 1).map TabEntry.fullResult = some (some c9Result) ∧
    (tabGet c9AfterFailure 1).map TabEntry.riskScore = some (some 0) ∧
    (tabGet c9AfterFailure 1).map TabEntry.fullResult = some none :=
  ⟨rfl, rfl, rfl⟩

/-- C9, amended: Tab State Store writes replace the whole entry — the
written entry is stored verbatim, other tabs are untouched, and the
failure-path write in particular stores an entry with no `fullResult`,
losing any previously stored one. -/
theorem c9_replace_semantics (m : TabMap) (t t' : Nat) (e : TabEntry)
    (signal : ScoutSignal) (msg : String) :
    tabGet (tabSet m t e) t = some e ∧
    (t' ≠ t → tabGet (tabSet m t e) t' = tabGet m t') ∧
    tabGet (scoutResponsePhase signal (some t) (.error msg) m).1 t =
      some (failureEntry signal) ∧
    (failureEntry signal).fullResult = none := by
  refine ⟨tabGet_tabSet_self m t e, fun h => tabGet_tabSet_other m t t' e h, ?_, rfl⟩
  show tabGet (tabSet m t (failureEntry signal)) t = _
  exact tabGet_tabSet_self ..

/-- Witness for C9 at tab 1 with an unrelated tab 2. -/
theorem c9_replace_semantics_witness :
    (2 : Nat) ≠ 1 ∧
    tabGet (tabSet [] 1 (failureEntry c9Signal)) 2 = tabGet [] 2 ∧
    tabGet (tabSet [] 1 (failureEntry c9Signal)) 1 = some (failureEntry c9Signal) :=
  ⟨by decide,
   (c9_replace_semantics [] 1 2 (failureEntry c9Signal) c9Signal "x").2.1 (by decide),
   (c9_replace_semantics [] 1 2 (failureEntry c9Signal) c9Signal "x").1⟩

/-- C10: when the remote quick-scan call inside `checkLinkSafety` fails,
the function returns the fixed unknown response, leaves the cache
exactly as it was, and a subsequent call for the same URL (still
without a fresh cached entry) takes the remote path again. -/
theorem c10_link_check_failure (url : String) (now : Int) (c : LinkCache)
    (hstale : ∀ e, cacheGet c url = some e → ¬(now - e.timestamp < linkSafetyTTLms)) :
    checkLinkSafety url now (.error ()) c =
      ({ riskScore := 0, status := "unknown", reason := "Unable to check link",
         cached := false }, c, [.scoutScanRequest (linkCheckPayload url)]) ∧
    (∀ (now' : Int) (outcome2 : Except Unit ScanResult),
      (∀ e, cacheGet c url = some e → ¬(now' - e.timestamp < linkSafetyTTLms)) →
      (checkLinkSafety url now' outcome2 c).2.2 =
        [.scoutScanRequest (linkCheckPayload url)]) := by
  have hpath : ∀ (now' : Int) (outcome2 : Except Unit ScanResult),
      (∀ e, cacheGet c url = some e → ¬(now' - e.timestamp < linkSafetyTTLms)) →
      checkLinkSafety url now' outcome2 c = checkLinkSafetyFresh url now' outcome2 c := by
    intro now' outcome2 hs
    cases hcg : cacheGet c url with
    | none => exact checkLinkSafety_miss url now' outcome2 c hcg
    | some entry => exact checkLinkSafety_stale url now' outcome2 c entry hcg (hs entry hcg)
  constructor
  · rw [hpath now (.error ()) hstale]
    rfl
  · intro now' outcome2 hs
    rw [hpath now' outcome2 hs]
    exact checkLinkSafetyFresh_effects ..

/-- Witness for C10 on an empty cache. -/
theorem c10_link_check_failure_witness :
    checkLinkSafety "https://example.net/" 0 (.error ()) [] =
      ({ riskScore := 0, status := "unknown", reason := "Unable to check link",
         cached := false }, [],
       [.scoutScanRequest (linkCheckPayload "https://example.net/")]) :=
  (c10_link_check_failure "https://example.net/" 0 [] (fun _ he => nomatch he)).1

end Kryptos
